import Mathlib

/-!
Verification development for the askyourgov meeting-portal scraper.

The Python sources under `playwright_meeting_scraper/` and
`selenium_meeting_scraper/` are shallowly embedded below: pure Python
functions become Lean functions, driver reads become explicit data on
entry structures, and exceptions that the source catches become
`Option`/`Except` values. Optional Python values (`None`) are
`Option`; Python truthiness of strings is "not the empty string";
numeric backend ids are modelled by their (nonempty) decimal strings.
The Playwright backend's `scrape_meeting_files` is not valid Python
(its per-file `try` at line 417 has no handler and the parser rejects
the file at line 598), so that function has no behavior to embed: it
is modelled at the level of its try/except block structure in the
dedicated section below.
-/

/-- Truthiness of an optional Python string: `None` and the empty
string are falsy, every other string is truthy. -/
def pyStrTruthy : Option String → Bool
  | none => false
  | some s => !(s == "")

/-- Python whitespace class `\s` restricted to its ASCII members,
which is what the scraped text can contain in the modelled fragment. -/
def isPyWs (c : Char) : Bool :=
  c == ' ' || c == '\t' || c == '\n' || c == '\r' || c == '\x0b' || c == '\x0c'

/-- Model of `str.strip()` on the character list: drop leading and
trailing whitespace. -/
def pyStripL (s : List Char) : List Char :=
  (((s.dropWhile isPyWs).reverse).dropWhile isPyWs).reverse

/-- Model of `str.strip()` on strings. -/
def pyStrip (s : String) : String :=
  ⟨pyStripL s.data⟩

/-- Does the pattern occur at the start of the list? -/
def leadsWith : List Char → List Char → Bool
  | [], _ => true
  | _ :: _, [] => false
  | p :: ps, c :: cs => p == c && leadsWith ps cs

/-- Calendar date as produced by `datetime.date`. -/
structure PyDate where
  year : Nat
  month : Nat
  day : Nat
  deriving DecidableEq, Repr

/-- Model of `datetime.date.__lt__`: lexicographic on (year, month, day). -/
def dateLTb (a b : PyDate) : Bool :=
  a.year < b.year ||
    (a.year == b.year && (a.month < b.month ||
      (a.month == b.month && a.day < b.day)))

/-- Inclusive order on dates, the complement of `dateLTb`. -/
def dateLEb (a b : PyDate) : Bool :=
  a.year < b.year ||
    (a.year == b.year && (a.month < b.month ||
      (a.month == b.month && a.day ≤ b.day)))

/-- Leap-year rule used by `datetime`. -/
def isLeapYear (y : Nat) : Bool :=
  (y % 4 == 0 && y % 100 != 0) || y % 400 == 0

/-- Days in a month, as `datetime` validates them. -/
def daysInMonth (y m : Nat) : Nat :=
  if m == 2 then (if isLeapYear y then 29 else 28)
  else if m == 4 || m == 6 || m == 9 || m == 11 then 30
  else 31

/-- Validity check of `datetime(year, month, day)`: the constructor
raises `ValueError` exactly when this is false (MINYEAR 1, MAXYEAR 9999). -/
def validYMD (y m d : Nat) : Bool :=
  decide (1 ≤ y ∧ y ≤ 9999 ∧ 1 ≤ m ∧ m ≤ 12 ∧ 1 ≤ d ∧ d ≤ daysInMonth y m)

/-- Backend `remoteFile` payload recovered from React component props
(file id and stream URL modelled as truthy-or-absent strings, the
numeric `fileType` as an optional number). -/
structure RemoteFile where
  fileId : Option String := none
  fileType : Option Nat := none
  name : Option String := none
  streamUrl : Option String := none
  deriving DecidableEq, Repr

namespace Playwright

/-- Fixed API base from `playwright_meeting_scraper/firestone.py`. -/
def API_BASE_URL : String := "https://firestoneco.api.civicclerk.com/v1/"

/-- Embedding of `playwright_meeting_scraper.firestone.build_download_url`.
The source checks, in order: falsy `remote_file` → `None`; falsy
`fileId` → `None`; truthy `streamUrl` → return it as-is; otherwise
format the attachment or meeting-file API URL, with the Python boolean
rendered via `str(plain_text).lower()`. -/
def build_download_url (remote_file : Option RemoteFile)
    (is_attachment : Bool := false) (plain_text : Bool := false) :
    Option String :=
  match remote_file with
  | none => none
  | some rf =>
    if !(pyStrTruthy rf.fileId) then none
    else if pyStrTruthy rf.streamUrl then rf.streamUrl
    else if is_attachment then
      some (API_BASE_URL ++ "Meetings/GetAttachmentFile(fileId=" ++
        rf.fileId.getD "" ++ ")")
    else
      some (API_BASE_URL ++ "Meetings/GetMeetingFileStream(fileId=" ++
        rf.fileId.getD "" ++ ",plainText=" ++
        (if plain_text then "true" else "false") ++ ")")

end Playwright

namespace Selenium

/-- Fixed API base from `selenium_meeting_scraper/firestone.py`. -/
def API_BASE_URL : String := "https://firestoneco.api.civicclerk.com/v1/"

/-- Embedding of `selenium_meeting_scraper.firestone.build_download_url`
(text-identical to the Playwright backend's function). -/
def build_download_url (remote_file : Option RemoteFile)
    (is_attachment : Bool := false) (plain_text : Bool := false) :
    Option String :=
  match remote_file with
  | none => none
  | some rf =>
    if !(pyStrTruthy rf.fileId) then none
    else if pyStrTruthy rf.streamUrl then rf.streamUrl
    else if is_attachment then
      some (API_BASE_URL ++ "Meetings/GetAttachmentFile(fileId=" ++
        rf.fileId.getD "" ++ ")")
    else
      some (API_BASE_URL ++ "Meetings/GetMeetingFileStream(fileId=" ++
        rf.fileId.getD "" ++ ",plainText=" ++
        (if plain_text then "true" else "false") ++ ")")

end Selenium

/-- Reference URL builder written directly from the specification's
three ordered rules (4.3): no `file_id` → no value; else a present
`stream_url` is returned verbatim; else the fixed API base is followed
by the attachment shape or the stream shape with a lowercase boolean. -/
def specUrlRules (remote_file : Option RemoteFile)
    (is_attachment plain_text : Bool) : Option String :=
  let fid := match remote_file with
             | none => none
             | some rf => if pyStrTruthy rf.fileId then rf.fileId else none
  match fid with
  | none => none
  | some i =>
    let su := (remote_file.bind RemoteFile.streamUrl)
    if pyStrTruthy su then su
    else if is_attachment then
      some ("https://firestoneco.api.civicclerk.com/v1/" ++
        "Meetings/GetAttachmentFile(fileId=" ++ i ++ ")")
    else
      some ("https://firestoneco.api.civicclerk.com/v1/" ++
        "Meetings/GetMeetingFileStream(fileId=" ++ i ++ ",plainText=" ++
        (if plain_text then "true" else "false") ++ ")")

/-!
Date Extractor (`extract_meeting_date` in both backends, identical up
to the driver API). A rendered meeting-list entry is modelled by the
three pieces of data the function reads from the DOM: the `data-date`
attribute, the `aria-label` attribute, and the text of the nested
`dateDetails` h2 element (`none` models a missing attribute/element or
a `None` text).
-/

/-- Rendered meeting-list entry as seen by the Date Extractor. -/
structure MeetingEntry where
  data_date : Option String
  aria_label : Option String
  h2_text : Option String
  deriving DecidableEq, Repr

/-- Decimal digit character. -/
def digitChar : Nat → Char
  | 0 => '0' | 1 => '1' | 2 => '2' | 3 => '3' | 4 => '4'
  | 5 => '5' | 6 => '6' | 7 => '7' | 8 => '8' | _ => '9'

/-- Numeric value of a digit character. -/
def dval (c : Char) : Nat := c.toNat - 48

/-- Model of `data_date.replace('Z', '+00:00')`: every occurrence of
the character Z becomes the six-character UTC offset. -/
def replaceZ : List Char → List Char
  | [] => []
  | c :: r =>
    if c == 'Z' then '+' :: '0' :: '0' :: ':' :: '0' :: '0' :: replaceZ r
    else c :: replaceZ r

/-- Date part of `datetime.fromisoformat`: YYYY-MM-DD with calendar
validation, returning the date and the unconsumed tail. -/
def parseISODate : List Char → Option (PyDate × List Char)
  | c1 :: c2 :: c3 :: c4 :: d1 :: c5 :: c6 :: d2 :: c7 :: c8 :: rest =>
    if c1.isDigit && c2.isDigit && c3.isDigit && c4.isDigit && d1 == '-' &&
        c5.isDigit && c6.isDigit && d2 == '-' && c7.isDigit && c8.isDigit then
      let y := dval c1 * 1000 + dval c2 * 100 + dval c3 * 10 + dval c4
      let m := dval c5 * 10 + dval c6
      let d := dval c7 * 10 + dval c8
      if validYMD y m d then some (⟨y, m, d⟩, rest) else none
    else none
  | _ => none

/-- Offset part of `datetime.fromisoformat` as modelled here: empty,
or a sign with HH:MM within timezone range. -/
def parseOffsetPart : List Char → Bool
  | [] => true
  | [sgn, h1, h2, col, m1, m2] =>
    (sgn == '+' || sgn == '-') && h1.isDigit && h2.isDigit && col == ':' &&
      m1.isDigit && m2.isDigit &&
      dval h1 * 10 + dval h2 < 24 && dval m1 * 10 + dval m2 < 60
  | _ => false

/-- Time part of `datetime.fromisoformat` as modelled here: empty
(date only) or a T separator, HH:MM:SS within range, and an optional
offset. Shapes outside this grammar are parse failures, which the
extractor treats the same as any other failed parse. -/
def parseTimePart : List Char → Bool
  | [] => true
  | sep :: h1 :: h2 :: c1 :: m1 :: m2 :: c2 :: s1 :: s2 :: rest =>
    sep == 'T' && h1.isDigit && h2.isDigit && c1 == ':' &&
      m1.isDigit && m2.isDigit && c2 == ':' && s1.isDigit && s2.isDigit &&
      dval h1 * 10 + dval h2 < 24 && dval m1 * 10 + dval m2 < 60 &&
      dval s1 * 10 + dval s2 < 60 && parseOffsetPart rest
  | _ => false

/-- Model of `datetime.fromisoformat(s).date()`: the calendar date
component of a parsed extended ISO-8601 timestamp, `none` on failure. -/
def pyFromIsoformatDate (s : List Char) : Option PyDate :=
  match parseISODate s with
  | some (d, rest) => if parseTimePart rest then some d else none
  | none => none

/-- The `month_map` of the source keyed by the lowercased first three
letters of the month name. -/
def monthMap (s : String) : Option Nat :=
  if s == "jan" then some 1 else if s == "feb" then some 2
  else if s == "mar" then some 3 else if s == "apr" then some 4
  else if s == "may" then some 5 else if s == "jun" then some 6
  else if s == "jul" then some 7 else if s == "aug" then some 8
  else if s == "sep" then some 9 else if s == "oct" then some 10
  else if s == "nov" then some 11 else if s == "dec" then some 12
  else none

/-- Model of `month_name.lower()[:3]`. -/
def low3 (s : List Char) : String :=
  ⟨(s.map Char.toLower).take 3⟩

/-- Value of a decimal digit string (Python `int` on a `\d+` match). -/
def natOfDigits (s : List Char) : Nat :=
  s.foldl (fun a c => a * 10 + dval c) 0

/-- Greedy `[A-Za-z]+`: the maximal nonempty letter run and the rest. -/
def takeLetters (s : List Char) : Option (List Char × List Char) :=
  let run := s.takeWhile Char.isAlpha
  if run.isEmpty then none else some (run, s.dropWhile Char.isAlpha)

/-- Greedy `\d+`: the maximal nonempty digit run and the rest. -/
def takeDigitsRun (s : List Char) : Option (List Char × List Char) :=
  let run := s.takeWhile Char.isDigit
  if run.isEmpty then none else some (run, s.dropWhile Char.isDigit)

/-- Optional single character (`,?` / `\.?`): consume it when present.
On these patterns consuming is forced whenever possible, since the
following piece is `\s+` and never matches the optional character. -/
def optChar (c : Char) : List Char → List Char
  | [] => []
  | x :: r => if x == c then r else x :: r

/-- Greedy `\s+`: at least one whitespace character, consume the run. -/
def reqWs (s : List Char) : Option (List Char) :=
  if (s.takeWhile isPyWs).isEmpty then none else some (s.dropWhile isPyWs)

/-- `\d{4}`: exactly four digit characters (the rest is unexamined). -/
def take4Digits : List Char → Option (List Char)
  | a :: b :: c :: d :: _ =>
    if a.isDigit && b.isDigit && c.isDigit && d.isDigit then some [a, b, c, d]
    else none
  | _ => none

/-- Anchored match of the aria-label pattern
`([A-Za-z]+),?\s+([A-Za-z]+)\.?\s+(\d+),?\s+(\d{4})` at the start of
the list, returning the month-name, day and year captures. Each
quantifier here is deterministic (a shorter greedy run can never be
followed by the required whitespace), so no backtracking is needed. -/
def matchAriaAt (s : List Char) : Option (List Char × List Char × List Char) := do
  let (_, r1) ← takeLetters s
  let r2 ← reqWs (optChar ',' r1)
  let (mon, r3) ← takeLetters r2
  let r4 ← reqWs (optChar '.' r3)
  let (day, r5) ← takeDigitsRun r4
  let r6 ← reqWs (optChar ',' r5)
  let yr ← take4Digits r6
  return (mon, day, yr)

/-- Model of `re.search` with the aria-label pattern: first position
(leftmost) where the anchored match succeeds. -/
def searchAria : List Char → Option (List Char × List Char × List Char)
  | [] => none
  | s@(_ :: t) =>
    match matchAriaAt s with
    | some r => some r
    | none => searchAria t

/-- Anchored match of the h2 pattern `([A-Za-z]+)\s+(\d+),?\s+(\d{4})`. -/
def matchH2At (s : List Char) : Option (List Char × List Char × List Char) := do
  let (mon, r1) ← takeLetters s
  let r2 ← reqWs r1
  let (day, r3) ← takeDigitsRun r2
  let r4 ← reqWs (optChar ',' r3)
  let yr ← take4Digits r4
  return (mon, day, yr)

/-- Model of `re.search` with the h2 pattern. -/
def searchH2 : List Char → Option (List Char × List Char × List Char)
  | [] => none
  | s@(_ :: t) =>
    match matchH2At s with
    | some r => some r
    | none => searchH2 t

/-- Source (1) of the Date Extractor: the `data-date` attribute, when
truthy, run through `fromisoformat` after the Z replacement; a parse
failure is swallowed by the inner try and yields `none`. -/
def dataDateResult (e : MeetingEntry) : Option PyDate :=
  match e.data_date with
  | none => none
  | some s => if s.data.isEmpty then none else pyFromIsoformatDate (replaceZ s.data)

/-- Source (2) of the Date Extractor: the aria-label pattern. The
`datetime(year, month, day)` call sits under no local try, so a
calendar-invalid match raises `ValueError` to the outer handler -
modelled by `Except.error ()`. A non-match or unknown month falls
through (`Except.ok none`). -/
def ariaResult (e : MeetingEntry) : Except Unit (Option PyDate) :=
  match e.aria_label with
  | none => Except.ok none
  | some al =>
    if al.data.isEmpty then Except.ok none
    else
      match searchAria al.data with
      | none => Except.ok none
      | some (mon, day, yr) =>
        match monthMap (low3 mon) with
        | none => Except.ok none
        | some m =>
          let d := natOfDigits day
          let y := natOfDigits yr
          if validYMD y m d then Except.ok (some ⟨y, m, d⟩) else Except.error ()

/-- Source (3) of the Date Extractor: the two-line visual date block.
This block sits inside its own try/except, so even a calendar-invalid
match only yields `none`. -/
def h2Result (e : MeetingEntry) : Option PyDate :=
  match e.h2_text with
  | none => none
  | some t =>
    if t.data.isEmpty then none
    else
      match searchH2 (pyStripL t.data) with
      | none => none
      | some (mon, day, yr) =>
        match monthMap (low3 mon) with
        | none => none
        | some m =>
          let d := natOfDigits day
          let y := natOfDigits yr
          if validYMD y m d then some ⟨y, m, d⟩ else none

/-- Embedding of `extract_meeting_date`: source (1), then source (2) -
whose uncaught `ValueError` reaches the outer handler and returns
`None` without consulting source (3) - then source (3). -/
def extract_meeting_date (e : MeetingEntry) : Option PyDate :=
  match dataDateResult e with
  | some d => some d
  | none =>
    match ariaResult e with
    | Except.error _ => none
    | Except.ok (some d) => some d
    | Except.ok none => h2Result e

/-- Canonical rendering of an extended ISO-8601 timestamp
YYYY-MM-DDTHH:MM:SS with an optional Z suffix, used to quantify over
the timestamps of claim C3. -/
def pad2L (n : Nat) : List Char := [digitChar (n / 10 % 10), digitChar (n % 10)]

/-- Four-digit zero-padded rendering. -/
def pad4L (n : Nat) : List Char :=
  [digitChar (n / 1000 % 10), digitChar (n / 100 % 10),
   digitChar (n / 10 % 10), digitChar (n % 10)]

/-- The rendered timestamp string. -/
def renderISO (y m d hh mi ss : Nat) (zulu : Bool) : String :=
  ⟨pad4L y ++ '-' :: (pad2L m ++ '-' :: (pad2L d ++ 'T' ::
    (pad2L hh ++ ':' :: (pad2L mi ++ ':' ::
      (pad2L ss ++ (if zulu then ['Z'] else []))))))⟩

/-!
Component Inspector (`inspect_button_handlers`, identical in both
backends). The located React fiber and its `return` (parent) chain are
linear, so the chain is modelled as a list of nodes, the element's own
node first; each node carries its `type.displayName` (when the type is
truthy and has one) and the `remoteFile` of its `memoizedProps` (when
props and payload are truthy dicts).
-/

/-- One fiber node of the located component chain. -/
structure FiberNode where
  displayName : Option String
  remoteFileProp : Option RemoteFile
  deriving DecidableEq, Repr

/-- Embedding of the JS helper `findComponentWithRemoteFile(fiber,
depth)`: stop at null fiber or depth above 10; at each node return the
`memoizedProps.remoteFile` (checked first under the DownloadFileButton
identity, then unconditionally - both reads return the same payload);
otherwise continue at `fiber.return` with depth + 1. -/
def findComponentWithRemoteFile : List FiberNode → Nat → Option RemoteFile
  | [], _ => none
  | n :: rest, depth =>
    if depth > 10 then none
    else
      match (if n.displayName == some "DownloadFileButton"
             then n.remoteFileProp else none) with
      | some rf => some rf
      | none =>
        match n.remoteFileProp with
        | some rf => some rf
        | none => findComponentWithRemoteFile rest (depth + 1)

/-- DOM element as seen by the inspector: the located fiber chain, or
`none` when neither internal-prefixed property is found. -/
structure DomElement where
  fiberChain : Option (List FiberNode)
  deriving DecidableEq, Repr

/-- The `handlers.remoteFile` field computed by
`inspect_button_handlers`: null when no fiber was located, else the
result of the upward walk from the element's node. -/
def inspect_remoteFile (el : DomElement) : Option RemoteFile :=
  match el.fiberChain with
  | none => none
  | some chain => findComponentWithRemoteFile chain 0

/-!
Download Executor, direct-fetch mode (`scrape_meetings_with_files`,
playwright base.py lines 236-252): extension choice and filename
sanitization.
-/

/-- Python `\w` restricted to ASCII: letters, digits, underscore. -/
def pyIsWordChar (c : Char) : Bool :=
  c.isAlphanum || c == '_'

/-- The first sanitization pass `re.sub(r'[^\w\s-]', '', name)`. -/
def removeNonWord (s : List Char) : List Char :=
  s.filter (fun c => pyIsWordChar c || isPyWs c || c == '-')

/-- A hyphen or whitespace character (the class `[-\s]`). -/
def isHypWs (c : Char) : Bool :=
  c == '-' || isPyWs c

/-- The collapsing pass `re.sub(r'[-\s]+', '-', s)`, with the flag
recording whether the scanner is inside a run already replaced. -/
def collapseAux : Bool → List Char → List Char
  | _, [] => []
  | inRun, c :: rest =>
    if isHypWs c then
      (if inRun then collapseAux true rest else '-' :: collapseAux true rest)
    else c :: collapseAux false rest

/-- Collapse maximal hyphen/whitespace runs into single hyphens. -/
def collapseRuns (s : List Char) : List Char :=
  collapseAux false s

/-- Model of `str.lower().endswith('pdf')` for the type label. -/
def lowerEndsWithPdf (s : String) : Bool :=
  leadsWith "fdp".data ((s.data.map Char.toLower).reverse)

/-- The saved filename of the direct-fetch download loop: `.txt` when
`plain_text`, else `.pdf` (both the pdf-labelled and the default
branches); the name is sub-stripped-collapsed as in the source. -/
def download_filename (file_name : String) (plain_text : Bool)
    (type_label : String) : String :=
  let ext := if plain_text then ".txt"
             else if lowerEndsWithPdf type_label then ".pdf"
             else ".pdf"
  let safe_name : String := ⟨collapseRuns (pyStripL (removeNonWord file_name.data))⟩
  safe_name ++ ext

/-- The sanitized name exactly as claim C8 words it: remove the
non-word/space/hyphen characters, then collapse runs - with no
mention of the strip between the two passes. -/
def claimSanitizedName (file_name : String) : String :=
  ⟨collapseRuns (removeNonWord file_name.data)⟩

/-- The sanitized name of the amended C8: remove, strip the edges,
collapse. -/
def strippedSanitizedName (file_name : String) : String :=
  ⟨collapseRuns (pyStripL (removeNonWord file_name.data))⟩

/-- No two adjacent hyphens anywhere in the list. -/
def noAdjHyphens : List Char → Bool
  | [] => true
  | [_] => true
  | a :: b :: r => !(a == '-' && b == '-') && noAdjHyphens (b :: r)

/-!
Meeting date filter (`Scraper.filter_meetings_by_date_range`,
identical in both backends' base classes).
-/

/-- Meeting dict as produced by the Meeting Lister. -/
structure Meeting where
  event_id : Option String
  title : String
  url : String
  href : String
  date : Option PyDate
  deriving DecidableEq, Repr

/-- The filtering loop: meetings with a falsy date are skipped, then
the two bound checks `continue` out-of-range dates. -/
def filterMeetingsLoop (start_date end_date : Option PyDate) :
    List Meeting → List Meeting
  | [] => []
  | m :: rest =>
    match m.date with
    | none => filterMeetingsLoop start_date end_date rest
    | some d =>
      if (match start_date with | some s => dateLTb d s | none => false) then
        filterMeetingsLoop start_date end_date rest
      else if (match end_date with | some e2 => dateLTb e2 d | none => false) then
        filterMeetingsLoop start_date end_date rest
      else m :: filterMeetingsLoop start_date end_date rest

/-- Embedding of `filter_meetings_by_date_range`: both bounds absent
returns the list unchanged, otherwise the loop filters it. -/
def filter_meetings_by_date_range (meetings : List Meeting)
    (start_date end_date : Option PyDate) : List Meeting :=
  match start_date, end_date with
  | none, none => meetings
  | _, _ => filterMeetingsLoop start_date end_date meetings

/-- The membership predicate claim C10 describes: a date is present
and within the given inclusive bounds. -/
def inDateRange (start_date end_date : Option PyDate) (m : Meeting) : Bool :=
  match m.date with
  | none => false
  | some d =>
    (match start_date with | some s => dateLEb s d | none => true) &&
      (match end_date with | some e2 => dateLEb d e2 | none => true)

/-!
Block structure of `FirestoneScraper.scrape_meeting_files`. The
Playwright backend's function is not valid Python: the per-file `try:`
at `playwright_meeting_scraper/firestone.py:417` (the body of the
primary-files loop, indentation 16) has no matching `except` or
`finally` - the handler at line 595 (indentation 20) closes the inner
try of line 427 and the handler at line 598 (indentation 8) closes the
section try of line 411 - so the parser rejects the file at line 598
and the module can never be imported or run. The Selenium backend's
parallel walker does carry the per-file handler (line 636, indentation
16, with the same "Error extracting file" message and `continue`) and
parses cleanly. The definitions below transcribe the try/except tokens
(line number, indentation) of both walker functions from the sources
and check handler matching.
-/

/-- A `try:` or handler (`except`/`finally`) token of a Python
function body: whether it opens a try, its line number and its
indentation column. -/
structure PyBlockTok where
  isTry : Bool
  line : Nat
  indent : Nat
  deriving DecidableEq, Repr

/-- Handler-matching scan over the tokens in source order, carrying
the stack of open trys as (line, indentation) pairs: a `try` is
pushed; a handler closes the most recent open try at its own
indentation, and an open try deeper than a handler it dedents past has
no handler of its own - its line is returned. At the end of the region
any try still open is unhandled. The model covers regions where each
try has one handler clause and no `finally`, which holds of both
walkers. Returns the line witnessing invalid block structure, `none`
for a valid region. -/
def tryExceptScan : List (Nat × Nat) → List PyBlockTok → Option Nat
  | stack, [] =>
    (match stack with
     | [] => none
     | (l, _) :: _ => some l)
  | stack, t :: rest =>
    if t.isTry then tryExceptScan ((t.line, t.indent) :: stack) rest
    else
      match stack with
      | [] => some t.line
      | (l, i) :: s =>
        if t.indent < i then some l
        else if t.indent == i then tryExceptScan s rest
        else some t.line

/-- Scan of a function body's try/except tokens from an empty stack. -/
def firstUnhandledTry (toks : List PyBlockTok) : Option Nat :=
  tryExceptScan [] toks

/-- The try/except tokens of the Playwright walker
(`playwright_meeting_scraper/firestone.py`, `scrape_meeting_files`,
lines 380-787), transcribed line by line from the source. -/
def playwrightWalkerToks : List PyBlockTok :=
  [⟨true, 389, 8⟩, ⟨false, 393, 8⟩, ⟨true, 411, 8⟩, ⟨true, 417, 16⟩,
   ⟨true, 427, 20⟩, ⟨true, 482, 28⟩, ⟨true, 534, 36⟩, ⟨false, 551, 36⟩,
   ⟨true, 553, 40⟩, ⟨false, 559, 40⟩, ⟨false, 591, 28⟩, ⟨false, 595, 20⟩,
   ⟨false, 598, 8⟩, ⟨true, 602, 8⟩, ⟨true, 612, 16⟩, ⟨true, 676, 24⟩,
   ⟨true, 685, 32⟩, ⟨false, 756, 32⟩, ⟨false, 763, 24⟩, ⟨true, 766, 28⟩,
   ⟨false, 768, 28⟩, ⟨false, 779, 16⟩, ⟨false, 781, 8⟩]

/-- The tokens of the primary-files section alone (lines 411-598 of
the Playwright walker). -/
def playwrightPrimarySectionToks : List PyBlockTok :=
  [⟨true, 411, 8⟩, ⟨true, 417, 16⟩, ⟨true, 427, 20⟩, ⟨true, 482, 28⟩,
   ⟨true, 534, 36⟩, ⟨false, 551, 36⟩, ⟨true, 553, 40⟩, ⟨false, 559, 40⟩,
   ⟨false, 591, 28⟩, ⟨false, 595, 20⟩, ⟨false, 598, 8⟩]

/-- The try/except tokens of the Selenium walker
(`selenium_meeting_scraper/firestone.py`, `scrape_meeting_files`,
lines 431-814), transcribed line by line from the source. -/
def seleniumWalkerToks : List PyBlockTok :=
  [⟨true, 446, 8⟩, ⟨false, 452, 8⟩, ⟨true, 470, 8⟩, ⟨true, 475, 16⟩,
   ⟨true, 481, 20⟩, ⟨true, 524, 28⟩, ⟨true, 568, 36⟩, ⟨false, 584, 36⟩,
   ⟨true, 586, 40⟩, ⟨false, 592, 40⟩, ⟨false, 624, 28⟩, ⟨false, 628, 20⟩,
   ⟨false, 636, 16⟩, ⟨false, 639, 8⟩, ⟨true, 643, 8⟩, ⟨true, 654, 16⟩,
   ⟨true, 670, 24⟩, ⟨false, 673, 24⟩, ⟨true, 674, 28⟩, ⟨false, 677, 28⟩,
   ⟨true, 710, 28⟩, ⟨true, 719, 36⟩, ⟨false, 782, 36⟩, ⟨false, 789, 28⟩,
   ⟨true, 792, 32⟩, ⟨false, 794, 32⟩, ⟨false, 805, 16⟩, ⟨false, 807, 8⟩]

/-- C1 counterexample input: a reference carrying a stream URL but no
file id. -/
def streamOnlyRef : RemoteFile :=
  { fileId := none, fileType := none, name := none,
    streamUrl := some "https://blob.example.net/doc?sig=abc" }

/-- The claim of C1, refuted at `streamOnlyRef`: with `stream_url`
present but no `file_id`, the builder returns no value instead of the
stream URL - so the stream URL does not win "regardless of whether a
file_id is present". -/
theorem build_download_url_streamUrl_no_fileId_cex :
    Playwright.build_download_url (some streamOnlyRef) true false = none ∧
    Playwright.build_download_url (some streamOnlyRef) true false ≠
      some "https://blob.example.net/doc?sig=abc" := by
  constructor
  · rfl
  · intro h
    simp [Playwright.build_download_url, streamOnlyRef, pyStrTruthy] at h

/-- C1 amended: whenever the reference has a truthy `file_id` and a
truthy `stream_url`, `build_download_url` returns that `stream_url`
exactly, regardless of the `is_attachment` and `is_plain_text` flags. -/
theorem build_download_url_streamUrl_precedence
    (rf : RemoteFile) (ia pt : Bool) (u : String)
    (hid : pyStrTruthy rf.fileId = true)
    (hs : rf.streamUrl = some u) (hu : u ≠ "") :
    Playwright.build_download_url (some rf) ia pt = some u := by
  have hst : pyStrTruthy (some u) = true := by
    simpa [pyStrTruthy] using hu
  simp [Playwright.build_download_url, hid, hs, hst]

/-- Witness for the amended C1 at a concrete reference. -/
theorem build_download_url_streamUrl_precedence_witness :
    Playwright.build_download_url
      (some { fileId := some "7", streamUrl := some "https://blob.example.net/a" })
      true true = some "https://blob.example.net/a" :=
  build_download_url_streamUrl_precedence
    { fileId := some "7", streamUrl := some "https://blob.example.net/a" }
    true true "https://blob.example.net/a" (by decide) rfl (by decide)

/-- C2: the source `build_download_url` coincides with the
specification's three ordered rules on every input, and being a total
Lean function it is pure and never raises. -/
theorem build_download_url_matches_spec_rules :
    ∀ (remote_file : Option RemoteFile) (ia pt : Bool),
      Playwright.build_download_url remote_file ia pt =
        specUrlRules remote_file ia pt := by
  intro remote_file ia pt
  match remote_file with
  | none => rfl
  | some rf =>
    unfold Playwright.build_download_url specUrlRules
    by_cases hid : pyStrTruthy rf.fileId = true
    · have : ∃ i, rf.fileId = some i ∧ i ≠ "" := by
        match h : rf.fileId with
        | none => rw [h] at hid; simp [pyStrTruthy] at hid
        | some i =>
          refine ⟨i, rfl, ?_⟩
          rw [h] at hid; simpa [pyStrTruthy] using hid
      obtain ⟨i, hi, hne⟩ := this
      simp only [hid, hi]
      simp [pyStrTruthy, hne, Playwright.API_BASE_URL, hi, Option.bind]
    · have hid' : pyStrTruthy rf.fileId = false := by
        revert hid; cases pyStrTruthy rf.fileId <;> simp
      simp only [hid']
      match h : rf.fileId with
      | none => simp
      | some i =>
        rw [h] at hid'
        simp [hid']

/-- C9: the Selenium and Playwright URL builders agree on every input,
including the API base prefix. -/
theorem build_download_url_backend_equivalence :
    ∀ (remote_file : Option RemoteFile) (ia pt : Bool),
      Selenium.build_download_url remote_file ia pt =
        Playwright.build_download_url remote_file ia pt := by
  intro remote_file ia pt
  rfl

theorem digitChar_spec (k : Nat) (h : k < 10) :
    (digitChar k).isDigit = true ∧ dval (digitChar k) = k ∧
      ((digitChar k) == 'Z') = false := by
  interval_cases k <;> exact ⟨rfl, rfl, rfl⟩

/-- A rendered digit is a digit character. -/
theorem digitChar_mod_isDigit (n : Nat) : (digitChar (n % 10)).isDigit = true :=
  (digitChar_spec (n % 10) (Nat.mod_lt _ (by norm_num))).1

/-- Digit value of a rendered digit. -/
theorem digitChar_mod_dval (n : Nat) : dval (digitChar (n % 10)) = n % 10 :=
  (digitChar_spec (n % 10) (Nat.mod_lt _ (by norm_num))).2.1

/-- A rendered digit is not the character Z. -/
theorem digitChar_mod_beq_Z (n : Nat) : ((digitChar (n % 10)) == 'Z') = false :=
  (digitChar_spec (n % 10) (Nat.mod_lt _ (by norm_num))).2.2

/-- Round trip: the modelled `fromisoformat` recovers exactly the calendar
date component of a rendered valid extended ISO-8601 timestamp, for both
the Z-suffixed and the offset-free form (the Z replacement included). -/
theorem pyFromIso_render (y m d hh mi ss : Nat) (z : Bool)
    (hv : validYMD y m d = true) (hy : y ≤ 9999) (hm : m ≤ 99) (hd : d ≤ 99)
    (hhh : hh < 24) (hmi : mi < 60) (hss : ss < 60) :
    pyFromIsoformatDate (replaceZ (renderISO y m d hh mi ss z).data) =
      some ⟨y, m, d⟩ := by
  have hy4 : y / 1000 % 10 * 1000 + y / 100 % 10 * 100 + y / 10 % 10 * 10 + y % 10 = y := by omega
  have hm2 : m / 10 % 10 * 10 + m % 10 = m := by omega
  have hd2 : d / 10 % 10 * 10 + d % 10 = d := by omega
  have hhh2 : hh / 10 % 10 * 10 + hh % 10 = hh := by omega
  have hmi2 : mi / 10 % 10 * 10 + mi % 10 = mi := by omega
  have hss2 : ss / 10 % 10 * 10 + ss % 10 = ss := by omega
  cases z <;>
    simp [renderISO, pad4L, pad2L, replaceZ, digitChar_mod_beq_Z,
      pyFromIsoformatDate, parseISODate, digitChar_mod_isDigit,
      digitChar_mod_dval, parseTimePart, parseOffsetPart,
      hy4, hm2, hd2, hhh2, hmi2, hss2, hv, hhh, hmi, hss] <;> decide

/-- Months have at most 31 days. -/
theorem daysInMonth_le31 (y m : Nat) : daysInMonth y m ≤ 31 := by
  unfold daysInMonth
  split
  · split <;> omega
  · split <;> omega

/-- C3 (amended): the Date Extractor is a total function returning a date
or no value; source (1) wins when it parses; when source (1) fails, a
normally-parsed source (2) wins; when sources (1) and (2) both fall
through the result is source (3); for every valid extended ISO-8601
timestamp in source (1) the result is exactly its calendar date
component, ignoring time and zone. The amendment forced by the
counterexample: when source (2) matches its pattern but the matched day
is calendar-invalid, the uncaught `ValueError` makes the extractor
return no value without consulting source (3). -/
theorem extract_meeting_date_priority :
    (∀ e d, dataDateResult e = some d → extract_meeting_date e = some d) ∧
    (∀ e d, dataDateResult e = none → ariaResult e = Except.ok (some d) →
       extract_meeting_date e = some d) ∧
    (∀ e, dataDateResult e = none → ariaResult e = Except.ok none →
       extract_meeting_date e = h2Result e) ∧
    (∀ e, dataDateResult e = none → ariaResult e = Except.error () →
       extract_meeting_date e = none) ∧
    (∀ y m d hh mi ss z al h2t,
       validYMD y m d = true → hh < 24 → mi < 60 → ss < 60 →
       extract_meeting_date ⟨some (renderISO y m d hh mi ss z), al, h2t⟩ =
         some ⟨y, m, d⟩) := by
  refine ⟨?_, ?_, ?_, ?_, ?_⟩
  · intro e d h; simp [extract_meeting_date, h]
  · intro e d h1 h2; simp [extract_meeting_date, h1, h2]
  · intro e h1 h2; simp [extract_meeting_date, h1, h2]
  · intro e h1 h2; simp [extract_meeting_date, h1, h2]
  · intro y m d hh mi ss z al h2t hv hhh hmi hss
    have hv' : 1 ≤ y ∧ y ≤ 9999 ∧ 1 ≤ m ∧ m ≤ 12 ∧ 1 ≤ d ∧ d ≤ daysInMonth y m := by
      simpa [validYMD] using hv
    have hda : dataDateResult ⟨some (renderISO y m d hh mi ss z), al, h2t⟩ =
        some ⟨y, m, d⟩ := by
      have hne : (renderISO y m d hh mi ss z).data.isEmpty = false := by
        simp [renderISO, pad4L]
      simp only [dataDateResult, hne, Bool.false_eq_true, if_false]
      exact pyFromIso_render y m d hh mi ss z hv hv'.2.1
        (by omega) (by have h31 := daysInMonth_le31 y m; omega) hhh hmi hss
    simp [extract_meeting_date, hda]

/-- Witness for C3 at the concrete timestamp of the specification. -/
theorem extract_meeting_date_priority_witness :
    renderISO 2025 8 13 18 0 0 true = "2025-08-13T18:00:00Z" ∧
    extract_meeting_date ⟨some (renderISO 2025 8 13 18 0 0 true), none, none⟩ =
      some ⟨2025, 8, 13⟩ :=
  ⟨by decide, extract_meeting_date_priority.2.2.2.2 2025 8 13 18 0 0 true none none
    (by decide) (by decide) (by decide) (by decide)⟩

/-- C3 counterexample: sources (1) and (2) do not successfully parse
(source (2) matches the pattern with day 32 and raises), source (3)
parses to 2025-09-01, yet the extractor returns no value instead of the
first successful parse. -/
theorem extract_meeting_date_aria_invalid_day_cex :
    dataDateResult ⟨none, some "Monday, Aug. 32, 2025", some "Sep 1, 2025"⟩ = none ∧
    ariaResult ⟨none, some "Monday, Aug. 32, 2025", some "Sep 1, 2025"⟩ =
      Except.error () ∧
    h2Result ⟨none, some "Monday, Aug. 32, 2025", some "Sep 1, 2025"⟩ =
      some ⟨2025, 9, 1⟩ ∧
    extract_meeting_date ⟨none, some "Monday, Aug. 32, 2025", some "Sep 1, 2025"⟩ =
      none :=
  ⟨rfl, rfl, rfl, rfl⟩

theorem findRF_take : ∀ (chain : List FiberNode) (depth : Nat),
    findComponentWithRemoteFile chain depth =
      (chain.take (11 - depth)).findSome? FiberNode.remoteFileProp := by
  intro chain
  induction chain with
  | nil => intro depth; simp [findComponentWithRemoteFile]
  | cons n rest ih =>
    intro depth
    by_cases h : depth > 10
    · have h0 : 11 - depth = 0 := by omega
      simp [findComponentWithRemoteFile, h, h0]
    · have h11 : 11 - depth = (10 - depth) + 1 := by omega
      have h10 : 11 - (depth + 1) = 10 - depth := by omega
      rw [h11]
      unfold findComponentWithRemoteFile
      simp only [h, if_false]
      cases hrf : n.remoteFileProp with
      | some rf =>
        cases hd : n.displayName == some "DownloadFileButton" <;>
          simp [hrf, List.findSome?_cons, hd]
      | none =>
        cases hd : n.displayName == some "DownloadFileButton" <;>
          simp [hrf, List.findSome?_cons, hd, ih, h10]

/-- C6: for every DOM element whose framework node chain is located,
the inspector's upward walk returns the first `remoteFile` payload
among the element's node and its first 10 ancestors (`take 11`), `none`
when no payload occurs there; and the walk's result depends only on
those 11 nodes, so no ancestor past the cap is ever examined. -/
theorem inspect_remoteFile_first_within_cap :
    (∀ (el : DomElement) (chain : List FiberNode),
        el.fiberChain = some chain →
        inspect_remoteFile el =
          (chain.take 11).findSome? FiberNode.remoteFileProp) ∧
    (∀ (chain : List FiberNode),
        findComponentWithRemoteFile chain 0 =
          findComponentWithRemoteFile (chain.take 11) 0) := by
  constructor
  · intro el chain h
    simp only [inspect_remoteFile, h]
    simpa using findRF_take chain 0
  · intro chain
    rw [findRF_take, findRF_take]
    simp [List.take_take]

/-- Witness for C6: a two-node chain whose parent is the download
button component carrying the payload. -/
theorem inspect_remoteFile_first_within_cap_witness :
    inspect_remoteFile
      ⟨some [⟨none, none⟩, ⟨some "DownloadFileButton", some { fileId := some "9" }⟩]⟩ =
      some { fileId := some "9" } := by
  have h := inspect_remoteFile_first_within_cap.1
    ⟨some [⟨none, none⟩, ⟨some "DownloadFileButton", some { fileId := some "9" }⟩]⟩
    [⟨none, none⟩, ⟨some "DownloadFileButton", some { fileId := some "9" }⟩] rfl
  rw [h]; decide

/-- Dates: the inclusive order is the negation of the strict order
reversed. -/
theorem dateLEb_not (a b : PyDate) : dateLEb b a = !(dateLTb a b) := by
  rw [Bool.eq_iff_iff]
  obtain ⟨y1, m1, d1⟩ := a
  obtain ⟨y2, m2, d2⟩ := b
  simp [dateLTb, dateLEb]
  omega

/-- The filtering loop equals `List.filter` of the range predicate. -/
theorem filterMeetingsLoop_eq_filter :
    ∀ (s e : Option PyDate) (l : List Meeting),
      filterMeetingsLoop s e l = l.filter (inDateRange s e) := by
  intro s e l
  induction l with
  | nil => rfl
  | cons m rest ih =>
    cases hd : m.date with
    | none => simp [filterMeetingsLoop, inDateRange, hd, ih, List.filter_cons]
    | some d =>
      cases s with
      | none =>
        cases e with
        | none => simp [filterMeetingsLoop, inDateRange, hd, ih, List.filter_cons]
        | some ed =>
          cases hb : dateLTb ed d <;>
            simp [filterMeetingsLoop, inDateRange, hd, hb, dateLEb_not, ih,
              List.filter_cons]
      | some sd =>
        cases e with
        | none =>
          cases hb : dateLTb d sd <;>
            simp [filterMeetingsLoop, inDateRange, hd, hb, dateLEb_not, ih,
              List.filter_cons]
        | some ed =>
          cases h1 : dateLTb d sd <;> cases h2 : dateLTb ed d <;>
            simp [filterMeetingsLoop, inDateRange, hd, h1, h2, dateLEb_not, ih,
              List.filter_cons]

/-- C10: with no bounds the meeting list is returned unchanged; with at
least one bound the result is exactly the order-preserving subsequence
of meetings having a date within the given inclusive bounds (meetings
with no date excluded), stated via `List.filter` and a `Sublist` fact. -/
theorem filter_meetings_by_date_range_spec :
    ∀ (meetings : List Meeting) (s e : Option PyDate),
      (s = none ∧ e = none →
        filter_meetings_by_date_range meetings s e = meetings) ∧
      (s.isSome ∨ e.isSome →
        filter_meetings_by_date_range meetings s e =
          meetings.filter (inDateRange s e)) ∧
      (filter_meetings_by_date_range meetings s e).Sublist meetings := by
  intro meetings s e
  cases s with
  | none =>
    cases e with
    | none =>
      refine ⟨fun _ => rfl, fun h => ?_, ?_⟩
      · rcases h with h | h <;> simp at h
      · exact List.Sublist.refl _
    | some ed =>
      refine ⟨fun h => by simp at h, fun _ => ?_, ?_⟩
      · exact filterMeetingsLoop_eq_filter none (some ed) meetings
      · rw [show filter_meetings_by_date_range meetings none (some ed) =
            filterMeetingsLoop none (some ed) meetings from rfl,
          filterMeetingsLoop_eq_filter]
        exact List.filter_sublist _
  | some sd =>
    cases e with
    | none =>
      refine ⟨fun h => by exact absurd h.1 (by simp), fun _ => ?_, ?_⟩
      · exact filterMeetingsLoop_eq_filter (some sd) none meetings
      · rw [show filter_meetings_by_date_range meetings (some sd) none =
            filterMeetingsLoop (some sd) none meetings from rfl,
          filterMeetingsLoop_eq_filter]
        exact List.filter_sublist _
    | some ed =>
      refine ⟨fun h => by exact absurd h.1 (by simp), fun _ => ?_, ?_⟩
      · exact filterMeetingsLoop_eq_filter (some sd) (some ed) meetings
      · rw [show filter_meetings_by_date_range meetings (some sd) (some ed) =
            filterMeetingsLoop (some sd) (some ed) meetings from rfl,
          filterMeetingsLoop_eq_filter]
        exact List.filter_sublist _

/-- Witness for C10: one dated and one undated meeting, a start bound
only. -/
theorem filter_meetings_by_date_range_spec_witness :
    filter_meetings_by_date_range
      [{ event_id := some "1", title := "A", url := "u", href := "h",
         date := some ⟨2025, 8, 13⟩ },
       { event_id := some "2", title := "B", url := "u", href := "h",
         date := none }]
      (some ⟨2025, 1, 1⟩) none =
      [{ event_id := some "1", title := "A", url := "u", href := "h",
         date := some ⟨2025, 8, 13⟩ }] := by
  have h := (filter_meetings_by_date_range_spec
    [{ event_id := some "1", title := "A", url := "u", href := "h",
       date := some ⟨2025, 8, 13⟩ },
     { event_id := some "2", title := "B", url := "u", href := "h",
       date := none }]
    (some ⟨2025, 1, 1⟩) none).2.1 (Or.inl rfl)
  rw [h]; decide

/-- A character outside the hyphen/whitespace class is not a hyphen. -/
theorem isHypWs_false_beq (c : Char) (h : isHypWs c = false) :
    (c == '-') = false := by
  unfold isHypWs at h
  exact (Bool.or_eq_false_iff.mp h).1

/-- Inside a replaced run, the next emitted character is never from the
hyphen/whitespace class. -/
theorem collapse_true_head :
    ∀ (s : List Char) (h : Char) (t' : List Char),
      collapseAux true s = h :: t' → isHypWs h = false := by
  intro s
  induction s with
  | nil => intro h t' he; simp [collapseAux] at he
  | cons a t ih =>
    intro h t' he
    by_cases hha : isHypWs a = true
    · simp only [collapseAux, hha, if_true] at he
      exact ih h t' he
    · rw [Bool.not_eq_true] at hha
      simp only [collapseAux, hha, Bool.false_eq_true, if_false] at he
      injection he with he1 he2
      rw [← he1]
      exact hha

/-- The collapsing pass never emits two adjacent hyphens. -/
theorem collapseAux_noAdj :
    ∀ (s : List Char) (b : Bool), noAdjHyphens (collapseAux b s) = true := by
  intro s
  induction s with
  | nil => intro b; rfl
  | cons a t ih =>
    intro b
    by_cases hha : isHypWs a = true
    · cases b with
      | true =>
        simp only [collapseAux, hha, if_true]
        exact ih true
      | false =>
        simp only [collapseAux, hha, if_true]
        cases hX : collapseAux true t with
        | nil => rfl
        | cons h t' =>
          have hh := collapse_true_head t h t' hX
          have hhb := isHypWs_false_beq h hh
          simp only [noAdjHyphens, hhb, Bool.and_false, Bool.not_false,
            Bool.true_and]
          rw [← hX]
          exact ih true
    · rw [Bool.not_eq_true] at hha
      simp only [collapseAux, hha, Bool.false_eq_true, if_false]
      cases hX : collapseAux false t with
      | nil => rfl
      | cons h t' =>
        have hab := isHypWs_false_beq a hha
        simp only [noAdjHyphens, hab, Bool.false_and, Bool.not_false,
          Bool.true_and]
        rw [← hX]
        exact ih false

/-- The collapsing pass maps word/space/hyphen text to word/hyphen
text. -/
theorem collapseAux_chars :
    ∀ (s : List Char) (b : Bool),
      (∀ c ∈ s, pyIsWordChar c = true ∨ isPyWs c = true ∨ c = '-') →
      ∀ c ∈ collapseAux b s, pyIsWordChar c = true ∨ c = '-' := by
  intro s
  induction s with
  | nil => intro b _ c hc; simp [collapseAux] at hc
  | cons a t ih =>
    intro b hall c hc
    have htail : ∀ c ∈ t, pyIsWordChar c = true ∨ isPyWs c = true ∨ c = '-' :=
      fun c' hc' => hall c' (List.mem_cons_of_mem a hc')
    by_cases hha : isHypWs a = true
    · cases b with
      | true =>
        simp only [collapseAux, hha, if_true] at hc
        exact ih true htail c hc
      | false =>
        simp only [collapseAux, hha, if_true, Bool.false_eq_true, if_false,
          List.mem_cons] at hc
        rcases hc with hc | hc
        · exact Or.inr hc
        · exact ih true htail c hc
    · rw [Bool.not_eq_true] at hha
      simp only [collapseAux, hha, Bool.false_eq_true, if_false,
        List.mem_cons] at hc
      rcases hc with hc | hc
      · subst hc
        rcases hall c (List.mem_cons_self c t) with h | h | h
        · exact Or.inl h
        · exfalso
          have : isHypWs c = true := by simp [isHypWs, h]
          rw [this] at hha; exact Bool.noConfusion hha
        · exact Or.inr h
      · exact ih false htail c hc

/-- The removal pass keeps only word, space and hyphen characters. -/
theorem removeNonWord_chars :
    ∀ (s : List Char) (c : Char), c ∈ removeNonWord s →
      pyIsWordChar c = true ∨ isPyWs c = true ∨ c = '-' := by
  intro s c hc
  have h := (List.mem_filter.mp hc).2
  rcases Bool.or_eq_true_iff.mp h with h' | h'
  · rcases Bool.or_eq_true_iff.mp h' with h'' | h''
    · exact Or.inl h''
    · exact Or.inr (Or.inl h'')
  · exact Or.inr (Or.inr (by simpa using h'))

/-- Stripping only removes characters. -/
theorem pyStripL_subset :
    ∀ (s : List Char) (c : Char), c ∈ pyStripL s → c ∈ s := by
  intro s c hc
  unfold pyStripL at hc
  rw [List.mem_reverse] at hc
  have h1 := (List.dropWhile_sublist (l := (s.dropWhile isPyWs).reverse)
    (p := isPyWs)).subset hc
  rw [List.mem_reverse] at h1
  exact (List.dropWhile_sublist (l := s) (p := isPyWs)).subset h1

/-- C8 (amended): the saved filename is the record's name with the
non-word/space/hyphen characters removed, leading and trailing
whitespace then stripped (the amendment forced by the counterexample),
and hyphen/space runs collapsed to single hyphens - so it contains only
word characters and hyphens with no repeated hyphens - with the
extension appended separately: `.txt` when plain text, else `.pdf` in
both remaining branches. -/
theorem download_filename_sanitization :
    ∀ (file_name type_label : String) (plain_text : Bool),
      download_filename file_name plain_text type_label =
        strippedSanitizedName file_name ++
          (if plain_text then ".txt" else ".pdf") ∧
      (∀ c ∈ (strippedSanitizedName file_name).data,
          pyIsWordChar c = true ∨ c = '-') ∧
      noAdjHyphens (strippedSanitizedName file_name).data = true := by
  intro fnm tl pt
  refine ⟨?_, ?_, ?_⟩
  · unfold download_filename strippedSanitizedName
    cases pt <;> cases h : lowerEndsWithPdf tl <;> simp [h]
  · intro c hc
    have hc' : c ∈ collapseAux false (pyStripL (removeNonWord fnm.data)) := hc
    exact collapseAux_chars _ false
      (fun c' hmem => removeNonWord_chars _ c' (pyStripL_subset _ c' hmem))
      c hc'
  · exact collapseAux_noAdj _ false

/-- Witness for C8 at the specification's example name. -/
theorem download_filename_sanitization_witness :
    download_filename "Agenda: Packet #1 (Final)" false "" =
      "Agenda-Packet-1-Final.pdf" ∧
    (pyIsWordChar 'A' = true ∨ 'A' = '-') := by
  have h := download_filename_sanitization "Agenda: Packet #1 (Final)" "" false
  exact ⟨by decide, h.2.1 'A' (by decide)⟩

/-- C8 counterexample: for a name with leading whitespace the code
strips it while the claim's remove-then-collapse transform turns it
into a leading hyphen, so the two differ. -/
theorem download_filename_strip_cex :
    download_filename " a" false "" = "a.pdf" ∧
    claimSanitizedName " a" ++ ".pdf" = "-a.pdf" ∧
    ¬ download_filename " a" false "" = claimSanitizedName " a" ++ ".pdf" :=
  ⟨by decide, by decide, by decide⟩

/-- C4 (code bug): the primary-files section of the Playwright walker
whose per-file record counts the claim describes is not valid Python -
the handler-matching scan of the section's try/except tokens reports
the per-file `try` at line 417 unhandled - so the module is rejected
at load time (SyntaxError at line 598) and the walker can never emit one
FileRecord per triggered primary file, nor any attachment records; the
claimed counts are the specification's intent and the unmatched try is
the slip. -/
theorem playwright_primary_section_unhandled_try :
    firstUnhandledTry playwrightPrimarySectionToks = some 417 := rfl

/-- C5 (code bug): the walker whose per-item exception tolerance the
claim asserts does not parse - the scan of the full try/except token
list of the Playwright `scrape_meeting_files` finds the try at line
417 without a handler - so every run dies when the module is imported,
before any walk starts, and no exception is ever caught, skipped or
tolerated; the tolerance the claim (and the spec) describe is the
intent the missing handler was to implement. -/
theorem playwright_walker_unhandled_try :
    firstUnhandledTry playwrightWalkerToks = some 417 := rfl

/-- C7 (code bug): the Playwright walker that would emit the
FileRecords the claimed invariant ranges over cannot be imported - its
block structure is invalid at line 417 - while the Selenium twin,
which carries the per-file handler at line 636 that the Playwright
file lacks, scans clean; the Playwright walker therefore never emits a
FileRecord at all, and the invariant over its emissions concerns a
program with no behavior. -/
theorem walker_backends_block_structure :
    firstUnhandledTry playwrightWalkerToks = some 417 ∧
    firstUnhandledTry seleniumWalkerToks = none :=
  ⟨rfl, rfl⟩

